import Mathlib

/-!
Shallow embedding of the crosspost-webapp publish validation-and-dispatch
pipeline, together with theorems checking the repository's specification
against it.

The embedding covers:
* the client-side validation engine (`getValidationErrors`, `countCharacters`)
  of the compose pane;
* the helper server's credential model (`StoredSecrets`, `summarizeSecrets`,
  `resolveTargetsFromSelection`), payload builder (`sanitizeThread`,
  `sanitizeMedia`, `buildGatewayPayload`), secrets endpoint handler
  (`postSecretsHandler`), settings endpoint (`settingsGetResponse`) and
  upstream relay (`relayUpstream`).

JavaScript-specific behaviour is modelled explicitly: string truthiness via
`jsTruthy` (the empty string is falsy), nullish coalescing via `Option.getD`,
duck-typed JSON values via the small `JVal` type, and the host platform's
WHATWG URL parser, `Date` parser and `JSON.parse` (which are not part of the
repository) as function parameters of the definitions that call them.
-/

namespace Crosspost

/-- JavaScript truthiness of a possibly-absent string: `undefined`/`null`
and the empty string are falsy, every other string is truthy. -/
def jsTruthy : Option String → Bool
  | none => false
  | some s => !s.isEmpty

/-- The characters JavaScript `String.prototype.trim` strips: ECMAScript
WhiteSpace and LineTerminator code points (space, tab, LF, VT, FF, CR,
NBSP, BOM; the rarer Unicode space separators, which never occur in the
strings of this development, are omitted). -/
def jsWhitespace (c : Char) : Bool :=
  c = ' ' || c = '\t' || c = '\n' || c = '\r' || c.toNat = 11 || c.toNat = 12 || c.toNat = 160 || c.toNat = 65279

/-- JavaScript `String.prototype.trim`: drop leading and trailing
whitespace. -/
def jsTrim (s : String) : String :=
  String.mk (((s.data.dropWhile jsWhitespace).reverse.dropWhile jsWhitespace).reverse)

/-- A duck-typed JSON field value as the handlers see it: a string, a nullish
value (`null` or `undefined`), or any other value together with its
JavaScript string coercion. -/
inductive JVal where
  | str (s : String)
  | nullish
  | other (asString : String)
deriving DecidableEq

/-! ## Client draft model and validation engine (compose pane) -/

/-- Compose mode: a single post or an ordered thread. -/
inductive Mode where
  | single
  | thread
deriving DecidableEq

/-- The target-platform selection toggles. -/
structure TargetSelection where
  x : Bool
  bluesky : Bool
  mastodon : Bool
deriving DecidableEq

/-- The fields of an attached `DraftMedia` item that validation reads:
its segment index and the `file.type` MIME string. -/
structure DraftMediaEntry where
  threadIndex : Nat
  fileType : String
deriving DecidableEq

/-- The X part of `LimitsResponse`; validation reads only `maxCharacters`. -/
structure XLimits where
  maxCharacters : Nat
deriving DecidableEq

/-- The Bluesky part of `LimitsResponse`; validation reads only
`maxCharacters`. -/
structure BlueskyLimits where
  maxCharacters : Nat
deriving DecidableEq

/-- The optional Mastodon part of `LimitsResponse`; validation reads
`maxCharacters` and `maxMediaAttachments`. -/
structure MastodonLimits where
  maxCharacters : Nat
  maxMediaAttachments : Nat
deriving DecidableEq

/-- The limits advertised by the gateway; the Mastodon block is optional
(fetched live from the instance). -/
structure LimitsResponse where
  x : XLimits
  bluesky : BlueskyLimits
  mastodon : Option MastodonLimits
deriving DecidableEq

/-- The compose-pane state that `getValidationErrors` reads. -/
structure ValidationInput where
  mode : Mode
  text : String
  thread : List String
  scheduleAt : String
  selectedTargets : TargetSelection
  media : List DraftMediaEntry
deriving DecidableEq

/-- Character counting of the compose pane: the length of the code-point
spread of the string, as JavaScript's spread of a string iterates code
points (one `Char`, a Unicode scalar value, per code point). -/
def countCharacters (input : String) : Nat :=
  input.data.length

/-- The number of UTF-16 code units of a string: astral code points take a
surrogate pair. Used only to contrast with `countCharacters`. -/
def utf16Length (s : String) : Nat :=
  (s.data.map (fun c => if c.toNat < 65536 then 1 else 2)).sum

def selectTargetMsg : String := "Select at least one target platform."

def missingTextMsg : String := "Add post text before publishing."

def threadSegMsg : String := "Each thread segment should contain text."

def xLimitMsg (label : String) (len limit : Nat) : String :=
  label ++ " exceeds X limit (" ++ toString len ++ "/" ++ toString limit ++ ")."

def blueskyLimitMsg (label : String) (len limit : Nat) : String :=
  label ++ " exceeds Bluesky limit (" ++ toString len ++ "/" ++ toString limit ++ ")."

def mastodonLimitMsg (label : String) (len limit : Nat) : String :=
  label ++ " exceeds Mastodon limit (" ++ toString len ++ "/" ++ toString limit ++ ")."

def blueskyVideoMsg (k : Nat) : String :=
  "Bluesky segment " ++ toString (k + 1) ++ " allows only one video."

def blueskyMixMsg (k : Nat) : String :=
  "Bluesky segment " ++ toString (k + 1) ++ " cannot mix video and images together."

def blueskyImagesMsg (k : Nat) : String :=
  "Bluesky segment " ++ toString (k + 1) ++ " supports up to 4 images."

def mastodonMediaMsg (k total limit : Nat) : String :=
  "Mastodon segment " ++ toString (k + 1) ++ " exceeds max media (" ++ toString total ++ "/" ++ toString limit ++ ")."

def scheduleMissingMsg : String := "Set a schedule date/time before scheduling."

def scheduleInvalidMsg : String := "Schedule date/time is invalid."

/-- Violation pushed when no target platform is selected. -/
def selectTargetErrors (selected : TargetSelection) : List String :=
  if selected.x || selected.bluesky || selected.mastodon then [] else [selectTargetMsg]

/-- Violation pushed when every (trimmed) segment is empty. -/
def missingTextErrors (trimmedSegments : List String) : List String :=
  if trimmedSegments.all (fun v => v.isEmpty) then [missingTextMsg] else []

/-- Violation pushed in thread mode when some (trimmed) segment is empty. -/
def threadEmptyErrors (mode : Mode) (trimmedSegments : List String) : List String :=
  if mode = Mode.thread && trimmedSegments.any (fun v => v.isEmpty) then [threadSegMsg] else []

/-- The per-segment label used in limit violations. -/
def segmentLabel (mode : Mode) (index : Nat) : String :=
  match mode with
  | Mode.single => "Post"
  | Mode.thread => "Segment " ++ toString (index + 1)

/-- The Mastodon character-limit check of one segment: skipped when the live
limit is absent, and skipped when it is `0` (a falsy number in JavaScript). -/
def mastodonCharErrors (selected : Bool) (mastodonLimit : Option Nat) (label : String) (len : Nat) : List String :=
  match mastodonLimit with
  | some m => if selected && !(m == 0) && decide (m < len) then [mastodonLimitMsg label len m] else []
  | none => []

/-- The character-limit checks of one trimmed segment against each selected
target's limit. -/
def charLimitErrorsFor (selected : TargetSelection) (xLimit blueskyLimit : Nat) (mastodonLimit : Option Nat) (label : String) (len : Nat) : List String :=
  (if selected.x && decide (xLimit < len) then [xLimitMsg label len xLimit] else [])
    ++ (if selected.bluesky && decide (blueskyLimit < len) then [blueskyLimitMsg label len blueskyLimit] else [])
    ++ mastodonCharErrors selected.mastodon mastodonLimit label len

/-- The per-segment character-limit loop: X defaults to 280 and Bluesky to
300 when limits have not loaded; Mastodon is checked only when fetched. -/
def charLimitErrors (limits : Option LimitsResponse) (selected : TargetSelection) (mode : Mode) (trimmedSegments : List String) : List String :=
  let xLimit := (limits.map (fun l => l.x.maxCharacters)).getD 280
  let blueskyLimit := (limits.map (fun l => l.bluesky.maxCharacters)).getD 300
  let mastodonLimit := (limits.bind (fun l => l.mastodon)).map (fun m => m.maxCharacters)
  (trimmedSegments.enum).flatMap
    (fun p => charLimitErrorsFor selected xLimit blueskyLimit mastodonLimit (segmentLabel mode p.1) (countCharacters p.2))

/-- JavaScript `String.prototype.startsWith` on MIME strings. -/
def mimeStartsWith (s pre : String) : Bool := pre.data.isPrefixOf s.data

def isVideoEntry (e : DraftMediaEntry) : Bool := mimeStartsWith e.fileType "video/"

def isImageEntry (e : DraftMediaEntry) : Bool := mimeStartsWith e.fileType "image/"

/-- The keys of the `mediaBySegment` map in the order a JavaScript `Map`
iterates them: first occurrence order of each `threadIndex`. -/
def groupKeys (media : List DraftMediaEntry) : List Nat :=
  media.foldl (fun ks e => if ks.contains e.threadIndex then ks else ks ++ [e.threadIndex]) []

/-- The group of attached media of one segment, in attachment order. -/
def groupOf (media : List DraftMediaEntry) (k : Nat) : List DraftMediaEntry :=
  media.filter (fun e => e.threadIndex == k)

/-- The Bluesky media violations of one segment group: at most one video,
no video/image mix, and at most 4 images when there is no video. -/
def blueskyGroupViolations (k : Nat) (entries : List DraftMediaEntry) : List String :=
  let videos := entries.filter isVideoEntry
  let images := entries.filter isImageEntry
  (if decide (1 < videos.length) then [blueskyVideoMsg k] else [])
    ++ (if videos.length == 1 && decide (0 < images.length) then [blueskyMixMsg k] else [])
    ++ (if videos.length == 0 && decide (4 < images.length) then [blueskyImagesMsg k] else [])

/-- The Bluesky media rule, evaluated per thread segment by grouping the
attached media by `threadIndex`; runs only when Bluesky is selected. -/
def blueskyMediaErrors (selected : TargetSelection) (media : List DraftMediaEntry) : List String :=
  if selected.bluesky then
    (groupKeys media).flatMap (fun k => blueskyGroupViolations k (groupOf media k))
  else []

/-- The Mastodon per-segment media-count check against the live
`maxMediaAttachments`; skipped when that limit is absent or `0` (falsy). -/
def mastodonMediaErrors (limits : Option LimitsResponse) (selected : TargetSelection) (media : List DraftMediaEntry) : List String :=
  match (limits.bind (fun l => l.mastodon)).map (fun m => m.maxMediaAttachments) with
  | some maxAttach =>
    if selected.mastodon && !(maxAttach == 0) then
      (groupKeys media).flatMap
        (fun k =>
          let total := (groupOf media k).length
          if decide (maxAttach < total) then [mastodonMediaMsg k total maxAttach] else [])
    else []
  | none => []

/-- The scheduling checks: `dateParses` stands for the host `Date` parser
(`!Number.isNaN(new Date(s).getTime())`), which is not repository code. -/
def scheduleErrors (dateParses : String → Bool) (wantsSchedule : Bool) (scheduleAt : String) : List String :=
  if wantsSchedule then
    if (jsTrim scheduleAt).isEmpty then [scheduleMissingMsg]
    else if !dateParses scheduleAt then [scheduleInvalidMsg]
    else []
  else []

/-- The compose pane's `getValidationErrors`: the ordered list of violation
strings collected over the draft. The pushes of the source appear here as
list concatenation in source order. -/
def getValidationErrors (dateParses : String → Bool) (limits : Option LimitsResponse) (st : ValidationInput) (wantsSchedule : Bool) : List String :=
  let texts := match st.mode with
    | Mode.single => [st.text]
    | Mode.thread => st.thread
  let trimmedSegments := texts.map jsTrim
  selectTargetErrors st.selectedTargets
    ++ missingTextErrors trimmedSegments
    ++ threadEmptyErrors st.mode trimmedSegments
    ++ charLimitErrors limits st.selectedTargets st.mode trimmedSegments
    ++ blueskyMediaErrors st.selectedTargets st.media
    ++ mastodonMediaErrors limits st.selectedTargets st.media
    ++ scheduleErrors dateParses wantsSchedule st.scheduleAt

/-- A single-mode draft of `n` grinning-face emoji (U+1F600, a four-byte
code point in UTF-8, an astral code point), with only X selected and no
media: a test vector for the code-point counting claim. -/
def emojiDraft (n : Nat) : ValidationInput :=
  { mode := Mode.single
    text := String.mk (List.replicate n (Char.ofNat 128512))
    thread := []
    scheduleAt := ""
    selectedTargets := { x := true, bluesky := false, mastodon := false }
    media := [] }

/-! ## Helper server: stored secrets and their summary -/

/-- The keychain-stored secrets. The source stores per-platform objects
(`secrets.x.authToken`, `secrets.bluesky.{identifier,pdsUrl,appPassword}`,
`secrets.mastodon.{instanceUrl,accessToken,visibility}`); since every access
in the source reads a leaf field through optional chaining and every write
replaces or deletes a whole per-platform object, the objects are flattened
here into one optional field per leaf (`none` = the object or field is
absent). -/
structure StoredSecrets where
  gatewayApiKey : Option String := none
  xAuthToken : Option String := none
  blueskyIdentifier : Option String := none
  blueskyPdsUrl : Option String := none
  blueskyAppPassword : Option String := none
  mastodonInstanceUrl : Option String := none
  mastodonAccessToken : Option String := none
  mastodonVisibility : Option String := none
deriving DecidableEq

/-- The `configured` booleans reported to the UI. -/
structure ConfiguredSummary where
  gatewayApiKey : Bool
  x : Bool
  bluesky : Bool
  mastodon : Bool
deriving DecidableEq

/-- `summarizeSecrets`: which platforms are fully credentialed; Bluesky
needs identifier, PDS URL and app password, Mastodon needs instance URL and
access token. -/
def summarizeSecrets (secrets : StoredSecrets) : ConfiguredSummary :=
  { gatewayApiKey := jsTruthy secrets.gatewayApiKey
    x := jsTruthy secrets.xAuthToken
    bluesky := jsTruthy secrets.blueskyIdentifier && jsTruthy secrets.blueskyPdsUrl && jsTruthy secrets.blueskyAppPassword
    mastodon := jsTruthy secrets.mastodonInstanceUrl && jsTruthy secrets.mastodonAccessToken }

/-- The non-secret `profile` block of the settings responses. -/
structure Profile where
  blueskyIdentifier : String
  blueskyPdsUrl : String
  mastodonInstanceUrl : String
  mastodonVisibility : String
deriving DecidableEq

/-- The profile block as both settings endpoints build it, with the
source's nullish-coalescing defaults. -/
def profileOf (secrets : StoredSecrets) : Profile :=
  { blueskyIdentifier := secrets.blueskyIdentifier.getD ""
    blueskyPdsUrl := secrets.blueskyPdsUrl.getD "https://bsky.social"
    mastodonInstanceUrl := secrets.mastodonInstanceUrl.getD ""
    mastodonVisibility := secrets.mastodonVisibility.getD "public" }

/-- Two stored-secrets states with the same observable shape: the four raw
secret values (gateway API key, X auth token, Bluesky app password,
Mastodon access token) may differ as long as their truthiness agrees, while
the four non-secret profile fields agree exactly. A settings response that
is identical across such states reveals nothing about the raw secret
values. -/
def secretShapeEq (s₁ s₂ : StoredSecrets) : Prop :=
  jsTruthy s₁.gatewayApiKey = jsTruthy s₂.gatewayApiKey
    ∧ jsTruthy s₁.xAuthToken = jsTruthy s₂.xAuthToken
    ∧ jsTruthy s₁.blueskyAppPassword = jsTruthy s₂.blueskyAppPassword
    ∧ jsTruthy s₁.mastodonAccessToken = jsTruthy s₂.mastodonAccessToken
    ∧ s₁.blueskyIdentifier = s₂.blueskyIdentifier
    ∧ s₁.blueskyPdsUrl = s₂.blueskyPdsUrl
    ∧ s₁.mastodonInstanceUrl = s₂.mastodonInstanceUrl
    ∧ s₁.mastodonVisibility = s₂.mastodonVisibility

/-- The body of `GET /api/settings`. -/
structure HelperSettingsResponse where
  gatewayBaseUrl : String
  configured : ConfiguredSummary
  profile : Profile
deriving DecidableEq

/-- The `GET /api/settings` handler body (after the config and secrets
reads). -/
def settingsGetResponse (gatewayBaseUrl : String) (secrets : StoredSecrets) : HelperSettingsResponse :=
  { gatewayBaseUrl
    configured := summarizeSecrets secrets
    profile := profileOf secrets }

/-! ## Helper server: credential resolver -/

/-- The authenticated X target block. -/
structure XTargetBlock where
  authToken : String
  client : String
deriving DecidableEq

/-- The authenticated Bluesky target block. -/
structure BlueskyTargetBlock where
  identifier : String
  pdsUrl : String
  appPassword : String
deriving DecidableEq

/-- The authenticated Mastodon target block. -/
structure MastodonTargetBlock where
  instanceUrl : String
  accessToken : String
  visibility : String
deriving DecidableEq

/-- The `targets` object assembled by the resolver: one optional
authenticated block per platform. -/
structure GatewayTargets where
  x : Option XTargetBlock := none
  bluesky : Option BlueskyTargetBlock := none
  mastodon : Option MastodonTargetBlock := none
deriving DecidableEq

/-- The result of `resolveTargetsFromSelection`. -/
structure ResolvedTargets where
  targets : GatewayTargets
  missing : List String
  selectedCount : Nat
deriving DecidableEq

/-- `Object.values(selected).filter(Boolean).length` over the selection's
fields in declaration order. -/
def selectionCount (selected : TargetSelection) : Nat :=
  (([selected.x, selected.bluesky, selected.mastodon]).filter (fun b => b)).length

/-- `resolveTargetsFromSelection`: defaults the selection to the fully
credentialed platforms when the caller sent none, then per selected platform
either emits its authenticated block or records it as missing. Each source
`if (selected.p)` block becomes one step computing its contribution to
`missing` and `targets`; the `getD ""` reads happen only under the
credential-presence guard, where the field is present. -/
def resolveTargetsFromSelection (secrets : StoredSecrets) (requestedTargets : Option TargetSelection) : ResolvedTargets :=
  let hasX := jsTruthy secrets.xAuthToken
  let hasBluesky := jsTruthy secrets.blueskyIdentifier && jsTruthy secrets.blueskyPdsUrl && jsTruthy secrets.blueskyAppPassword
  let hasMastodon := jsTruthy secrets.mastodonInstanceUrl && jsTruthy secrets.mastodonAccessToken
  let selected := requestedTargets.getD { x := hasX, bluesky := hasBluesky, mastodon := hasMastodon }
  let xStep : List String × Option XTargetBlock :=
    if selected.x then
      if !hasX then (["x"], none)
      else ([], some { authToken := secrets.xAuthToken.getD "", client := "web" })
    else ([], none)
  let blueskyStep : List String × Option BlueskyTargetBlock :=
    if selected.bluesky then
      if !hasBluesky then (["bluesky"], none)
      else ([], some { identifier := secrets.blueskyIdentifier.getD ""
                       pdsUrl := secrets.blueskyPdsUrl.getD ""
                       appPassword := secrets.blueskyAppPassword.getD "" })
    else ([], none)
  let mastodonStep : List String × Option MastodonTargetBlock :=
    if selected.mastodon then
      if !hasMastodon then (["mastodon"], none)
      else ([], some { instanceUrl := secrets.mastodonInstanceUrl.getD ""
                       accessToken := secrets.mastodonAccessToken.getD ""
                       visibility := secrets.mastodonVisibility.getD "public" })
    else ([], none)
  { targets := { x := xStep.2, bluesky := blueskyStep.2, mastodon := mastodonStep.2 }
    missing := xStep.1 ++ blueskyStep.1 ++ mastodonStep.1
    selectedCount := selectionCount selected }

/-- The `selected` local of `resolveTargetsFromSelection`: the requested
selection, defaulting to the fully credentialed platforms. -/
def resolvedSelection (secrets : StoredSecrets) (requestedTargets : Option TargetSelection) : TargetSelection :=
  requestedTargets.getD
    { x := jsTruthy secrets.xAuthToken
      bluesky := jsTruthy secrets.blueskyIdentifier && jsTruthy secrets.blueskyPdsUrl && jsTruthy secrets.blueskyAppPassword
      mastodon := jsTruthy secrets.mastodonInstanceUrl && jsTruthy secrets.mastodonAccessToken }

/-! ## Helper server: problem details and the posts preflight -/

/-- A ProblemDetails error body as `problem` builds it. -/
structure ProblemDetails where
  type : String
  title : String
  status : Nat
  detail : String
deriving DecidableEq

/-- The `problem` helper; every call site uses the default
`type = "about:blank"`. -/
def problem (status : Nat) (title detail : String) : ProblemDetails :=
  { type := "about:blank", title, status, detail }

/-- The target checks of the JSON branch of `POST /api/posts`, between
resolving the selection and relaying upstream: first the selection-emptiness
check, then the missing-credentials check. An `Except.error` is a 400 sent
to the caller with nothing relayed upstream; `Except.ok` carries the
resolution the relay then uses. -/
def postsPreflightJson (secrets : StoredSecrets) (selectedTargets : Option TargetSelection) : Except ProblemDetails ResolvedTargets :=
  let resolvedTargets := resolveTargetsFromSelection secrets selectedTargets
  if resolvedTargets.selectedCount == 0 then
    Except.error (problem 400 "No targets selected" "Select at least one platform target before publishing.")
  else if decide (0 < resolvedTargets.missing.length) then
    Except.error (problem 400 "Missing credentials" ("Credentials missing for: " ++ String.intercalate ", " resolvedTargets.missing))
  else Except.ok resolvedTargets

/-- The identical target checks of the multipart branch of
`POST /api/posts` (the source duplicates the code verbatim in both
branches). -/
def postsPreflightMultipart (secrets : StoredSecrets) (selectedTargets : Option TargetSelection) : Except ProblemDetails ResolvedTargets :=
  let resolvedTargets := resolveTargetsFromSelection secrets selectedTargets
  if resolvedTargets.selectedCount == 0 then
    Except.error (problem 400 "No targets selected" "Select at least one platform target before publishing.")
  else if decide (0 < resolvedTargets.missing.length) then
    Except.error (problem 400 "Missing credentials" ("Credentials missing for: " ++ String.intercalate ", " resolvedTargets.missing))
  else Except.ok resolvedTargets

/-! ## Helper server: payload builder -/

/-- A sanitized thread segment, `{ text: string }`. -/
structure ThreadSegment where
  text : String
deriving DecidableEq

/-- The `thread` field of a client payload as `Array.isArray` sees it:
either not an array at all, or a list of elements, each with a duck-typed
`text` field (an element that is not an object reads as a nullish
`text`). -/
inductive JThread where
  | notArray
  | arr (segments : List JVal)
deriving DecidableEq

/-- The coercion `typeof text === 'string' ? text : text == null ? '' :
String(text)` of one thread element's `text`. -/
def segText : JVal → String
  | JVal.str s => s
  | JVal.nullish => ""
  | JVal.other asString => asString

/-- `sanitizeThread`: non-array input is discarded, each element is coerced
to `{ text: string }`, and an empty result is discarded. -/
def sanitizeThread : JThread → Option (List ThreadSegment)
  | JThread.notArray => none
  | JThread.arr segments =>
    let normalized := segments.map (fun segment => { text := segText segment : ThreadSegment })
    if decide (0 < normalized.length) then some normalized else none

/-- One raw media item of a client payload: `threadIndex` is
`Number(item?.threadIndex)` when that is an integer (`none` when it is
`NaN`, fractional or infinite, so `Number.isInteger` fails), and `altText`
is the duck-typed field value. -/
structure JMediaItem where
  threadIndex : Option Int := none
  altText : JVal := JVal.nullish
deriving DecidableEq

/-- The `media` field of a client payload. -/
inductive JMedia where
  | notArray
  | arr (items : List JMediaItem)
deriving DecidableEq

/-- A sanitized media entry, `{ threadIndex, altText? }`. -/
structure MediaOut where
  threadIndex : Int
  altText : Option String := none
deriving DecidableEq

/-- `sanitizeMedia`: non-array input is discarded, items with a non-integer
or negative `threadIndex` are dropped, `altText` is kept trimmed only when
it is a string that trims non-empty, and an empty result is discarded. -/
def sanitizeMedia : JMedia → Option (List MediaOut)
  | JMedia.notArray => none
  | JMedia.arr items =>
    let normalized := items.filterMap
      (fun item =>
        match item.threadIndex with
        | none => none
        | some threadIndex =>
          if decide (threadIndex < 0) then none
          else
            some { threadIndex
                   altText := match item.altText with
                     | JVal.str s => if decide (0 < (jsTrim s).length) then some (jsTrim s) else none
                     | _ => none })
    if decide (0 < normalized.length) then some normalized else none

/-- A client payload of `POST /api/posts` as the handlers read it, each
field duck-typed the way the source guards it. -/
structure ClientPayload where
  text : JVal := JVal.nullish
  thread : JThread := JThread.notArray
  scheduleAt : JVal := JVal.nullish
  clientRequestId : JVal := JVal.nullish
  selectedTargets : Option TargetSelection := none
  media : JMedia := JMedia.notArray
deriving DecidableEq

/-- The outbound gateway request body. -/
structure GatewayPayload where
  targets : GatewayTargets
  text : Option String := none
  thread : Option (List ThreadSegment) := none
  scheduleAt : Option String := none
  clientRequestId : Option String := none
  media : Option (List MediaOut) := none
deriving DecidableEq

/-- `buildGatewayPayload`: starts from the resolver's `targets` and copies
each client field under its source guard (`text` when a non-empty string,
`thread`/`media` when they sanitize to something, `scheduleAt` when a
string with non-empty trim — kept untrimmed — and `clientRequestId`
trimmed when its trim is non-empty). -/
def buildGatewayPayload (clientPayload : ClientPayload) (targets : GatewayTargets) : GatewayPayload :=
  { targets
    text := match clientPayload.text with
      | JVal.str s => if decide (0 < s.length) then some s else none
      | _ => none
    thread := sanitizeThread clientPayload.thread
    scheduleAt := match clientPayload.scheduleAt with
      | JVal.str s => if decide (0 < (jsTrim s).length) then some s else none
      | _ => none
    clientRequestId := match clientPayload.clientRequestId with
      | JVal.str s => if decide (0 < (jsTrim s).length) then some (jsTrim s) else none
      | _ => none
    media := sanitizeMedia clientPayload.media }

/-! ## Helper server: the secrets endpoint -/

/-- `trimToUndefined`: non-strings become `undefined`, strings are trimmed
and empty trims become `undefined`. -/
def trimToUndefined : JVal → Option String
  | JVal.str s =>
    let trimmed := jsTrim s
    if decide (0 < trimmed.length) then some trimmed else none
  | _ => none

/-- The body of `POST /api/settings/secrets`: an outer `none` means the key
is absent (`Object.hasOwn` is false); reading an absent key yields
`undefined`, i.e. `JVal.nullish`. -/
structure SecretsBody where
  gatewayApiKey : Option JVal := none
  xAuthToken : Option JVal := none
  blueskyIdentifier : Option JVal := none
  blueskyPdsUrl : Option JVal := none
  blueskyAppPassword : Option JVal := none
  mastodonInstanceUrl : Option JVal := none
  mastodonAccessToken : Option JVal := none
  mastodonVisibility : Option JVal := none
deriving DecidableEq

/-- The `gatewayApiKey` block of the secrets handler: set when the trimmed
value is truthy, deleted otherwise; skipped when the key is absent. -/
def applyGatewayApiKey (body : SecretsBody) (next : StoredSecrets) : StoredSecrets :=
  match body.gatewayApiKey with
  | none => next
  | some v =>
    match trimToUndefined v with
    | some gatewayApiKey => { next with gatewayApiKey := some gatewayApiKey }
    | none => { next with gatewayApiKey := none }

/-- The `xAuthToken` block of the secrets handler: replaces or deletes the
whole `x` tuple; skipped when the key is absent. -/
def applyXAuthToken (body : SecretsBody) (next : StoredSecrets) : StoredSecrets :=
  match body.xAuthToken with
  | none => next
  | some v =>
    match trimToUndefined v with
    | some authToken => { next with xAuthToken := some authToken }
    | none => { next with xAuthToken := none }

/-- The Bluesky block of the secrets handler, run only when the body touches
a Bluesky key: all-empty clears the tuple, a full tuple (with the PDS URL
normalized by the host URL parser, abstracted as `normalizeUrl`) replaces
it, and anything else is a 400. -/
def applyBluesky (normalizeUrl : String → Option String) (body : SecretsBody) (next : StoredSecrets) : Except ProblemDetails StoredSecrets :=
  let touchesBluesky := body.blueskyIdentifier.isSome || body.blueskyPdsUrl.isSome || body.blueskyAppPassword.isSome
  if !touchesBluesky then Except.ok next
  else
    let identifier := trimToUndefined (body.blueskyIdentifier.getD JVal.nullish)
    let pdsUrlRaw := trimToUndefined (body.blueskyPdsUrl.getD JVal.nullish)
    let appPassword := trimToUndefined (body.blueskyAppPassword.getD JVal.nullish)
    let pdsUrl := pdsUrlRaw.bind normalizeUrl
    if !jsTruthy identifier && !jsTruthy pdsUrl && !jsTruthy appPassword then
      Except.ok { next with blueskyIdentifier := none, blueskyPdsUrl := none, blueskyAppPassword := none }
    else if jsTruthy identifier && jsTruthy pdsUrl && jsTruthy appPassword then
      Except.ok { next with blueskyIdentifier := identifier, blueskyPdsUrl := pdsUrl, blueskyAppPassword := appPassword }
    else
      Except.error (problem 400 "Bluesky credentials incomplete" "Set identifier, PDS URL, and app password together, or clear all three.")

/-- The Mastodon block of the secrets handler, run only when the body
touches a Mastodon key: both-empty clears the tuple (dropping the stored
visibility with it), a full pair replaces it with the trimmed visibility
defaulting to "public", and anything else is a 400. -/
def applyMastodon (normalizeUrl : String → Option String) (body : SecretsBody) (next : StoredSecrets) : Except ProblemDetails StoredSecrets :=
  let touchesMastodon := body.mastodonInstanceUrl.isSome || body.mastodonAccessToken.isSome || body.mastodonVisibility.isSome
  if !touchesMastodon then Except.ok next
  else
    let instanceUrlRaw := trimToUndefined (body.mastodonInstanceUrl.getD JVal.nullish)
    let accessToken := trimToUndefined (body.mastodonAccessToken.getD JVal.nullish)
    let visibility := (trimToUndefined (body.mastodonVisibility.getD JVal.nullish)).getD "public"
    let instanceUrl := instanceUrlRaw.bind normalizeUrl
    if !jsTruthy instanceUrl && !jsTruthy accessToken then
      Except.ok { next with mastodonInstanceUrl := none, mastodonAccessToken := none, mastodonVisibility := none }
    else if jsTruthy instanceUrl && jsTruthy accessToken then
      Except.ok { next with mastodonInstanceUrl := instanceUrl, mastodonAccessToken := accessToken, mastodonVisibility := some visibility }
    else
      Except.error (problem 400 "Mastodon credentials incomplete" "Set instance URL and access token together, or clear both fields.")

/-- The success body of `POST /api/settings/secrets`. -/
structure SecretsResponse where
  configured : ConfiguredSummary
  profile : Profile
deriving DecidableEq

deriving instance DecidableEq for Except

/-- What one run of `POST /api/settings/secrets` does: the keychain writes
it performs (each element one `writeSecrets` call, in order) and the reply
it sends. -/
structure HandlerResult where
  writes : List StoredSecrets
  reply : Except ProblemDetails SecretsResponse
deriving DecidableEq

/-- The `POST /api/settings/secrets` handler after the initial secrets
read: mutate a local copy block by block in source order; a 400 returns
before any keychain write, and only the final success path writes. -/
def postSecretsHandler (normalizeUrl : String → Option String) (current : StoredSecrets) (body : SecretsBody) : HandlerResult :=
  let next := applyGatewayApiKey body current
  let next := applyXAuthToken body next
  match applyBluesky normalizeUrl body next with
  | Except.error p => { writes := [], reply := Except.error p }
  | Except.ok next =>
    match applyMastodon normalizeUrl body next with
    | Except.error p => { writes := [], reply := Except.error p }
    | Except.ok next =>
      { writes := [next]
        reply := Except.ok { configured := summarizeSecrets next, profile := profileOf next } }

/-- The keychain contents after a handler run: each write replaces the
stored blob (last write wins). -/
def finalSecrets (current : StoredSecrets) (result : HandlerResult) : StoredSecrets :=
  result.writes.foldl (fun _ w => w) current

/-! ## Helper server: the upstream relay -/

/-- Whether `needle` occurs as a contiguous substring of `haystack`
(JavaScript `String.prototype.includes`). -/
def strIncludes (haystack needle : String) : Bool :=
  (List.range (haystack.data.length + 1)).any (fun i => needle.data.isPrefixOf (haystack.data.drop i))

/-- An upstream gateway response as `relayUpstream` reads it: the
`content-type` header (absent or its text) and the body text. -/
structure UpstreamResponse where
  contentType : Option String
  status : Nat
  bodyText : String
deriving DecidableEq

/-- The body `reply.send` receives: a parsed JSON document (re-serialized
by the framework) or raw text. `J` abstracts the host's JSON document type;
`relayUpstream` never inspects the parsed value. -/
inductive RelayBody (J : Type) where
  | parsedJson (j : J)
  | rawText (s : String)
deriving DecidableEq

/-- The reply `relayUpstream` sends. -/
structure RelaySent (J : Type) where
  contentTypeHeader : Option String
  status : Nat
  body : RelayBody J
deriving DecidableEq

/-- Whether the upstream content type takes the parse-then-send path. -/
def relayTreatsAsJson (contentType : Option String) : Bool :=
  match contentType with
  | some ct => strIncludes ct "application/json" || strIncludes ct "problem+json"
  | none => false

/-- `relayUpstream`: forward the content type (when truthy) and the
original status; for JSON/problem+json content types parse the body text
with the host `JSON.parse` (the parameter `parse`; `none` models a throw)
and send the parsed document, falling back to the raw text; send raw text
otherwise. -/
def relayUpstream {J : Type} (parse : String → Option J) (upstreamResponse : UpstreamResponse) : RelaySent J :=
  let contentType := upstreamResponse.contentType
  let payloadText := upstreamResponse.bodyText
  { contentTypeHeader := match contentType with
      | some ct => if ct.isEmpty then none else some ct
      | none => none
    status := upstreamResponse.status
    body :=
      if relayTreatsAsJson contentType then
        match parse payloadText with
        | some j => RelayBody.parsedJson j
        | none => RelayBody.rawText payloadText
      else RelayBody.rawText payloadText }

/-! # Theorems -/

/-! ## Helper lemmas -/

theorem resolveStep_snd {β : Type} (c h : Bool) (m : List String) (b : β) :
    (if c then if !h then (m, (none : Option β)) else (([] : List String), some b) else (([] : List String), none)).2
      = if c && h then some b else none := by
  cases c <;> cases h <;> simp

theorem resolveStep_fst {β : Type} (c h : Bool) (m : List String) (b : β) :
    (if c then if !h then (m, (none : Option β)) else (([] : List String), some b) else (([] : List String), none)).1
      = if c && !h then m else [] := by
  cases c <;> cases h <;> simp

theorem isSome_iteOption {β : Type} (c : Bool) (b : β) :
    (if c then some b else none).isSome = c := by
  cases c <;> simp

theorem trimToUndefined_nullish : trimToUndefined JVal.nullish = none := rfl

theorem mem_missing_iff (c₁ c₂ c₃ : Bool) (p : String) :
    p ∈ ((if c₁ then ["x"] else []) ++ (if c₂ then ["bluesky"] else []) ++ (if c₃ then ["mastodon"] else []) : List String)
      ↔ ((p = "x" ∧ c₁ = true) ∨ (p = "bluesky" ∧ c₂ = true) ∨ (p = "mastodon" ∧ c₃ = true)) := by
  cases c₁ <;> cases c₂ <;> cases c₃ <;> simp

/-! ## Claim C1 -/

/-- Claim C1: for every stored-secrets object and every requested selection,
the resolver emits an authenticated block for exactly the platforms that are
both selected and fully credentialed, lists as missing exactly the
selected-but-uncredentialed platform ids, and reports `selectedCount` as the
number of platforms the (defaulted) selection requested; with no stored
credentials and no requested selection the result is empty. -/
theorem resolveTargetsFromSelection_spec :
    (∀ (secrets : StoredSecrets) (requested : Option TargetSelection),
      (resolveTargetsFromSelection secrets requested).targets.x.isSome
          = ((resolvedSelection secrets requested).x && (summarizeSecrets secrets).x)
        ∧ (resolveTargetsFromSelection secrets requested).targets.bluesky.isSome
          = ((resolvedSelection secrets requested).bluesky && (summarizeSecrets secrets).bluesky)
        ∧ (resolveTargetsFromSelection secrets requested).targets.mastodon.isSome
          = ((resolvedSelection secrets requested).mastodon && (summarizeSecrets secrets).mastodon)
        ∧ (∀ p : String, p ∈ (resolveTargetsFromSelection secrets requested).missing
          ↔ ((p = "x" ∧ (resolvedSelection secrets requested).x = true ∧ (summarizeSecrets secrets).x = false)
            ∨ (p = "bluesky" ∧ (resolvedSelection secrets requested).bluesky = true ∧ (summarizeSecrets secrets).bluesky = false)
            ∨ (p = "mastodon" ∧ (resolvedSelection secrets requested).mastodon = true ∧ (summarizeSecrets secrets).mastodon = false)))
        ∧ (resolveTargetsFromSelection secrets requested).selectedCount
          = selectionCount (resolvedSelection secrets requested))
    ∧ resolveTargetsFromSelection {} none = { targets := {}, missing := [], selectedCount := 0 } := by
  refine ⟨fun secrets requested => ?_, rfl⟩
  simp only [resolveTargetsFromSelection, resolvedSelection, summarizeSecrets,
    resolveStep_snd, resolveStep_fst, isSome_iteOption]
  refine ⟨trivial, trivial, trivial, fun p => ?_, trivial⟩
  rw [mem_missing_iff]
  simp only [Bool.and_eq_true, Bool.not_eq_true']

/-! ## Claim C2 -/

/-- Claim C2: on both the JSON and the multipart branch of
`POST /api/posts`, a resolved `selectedCount` of zero yields the 400
"No targets selected" error, and a positive `selectedCount` with at least
one selected-but-uncredentialed platform yields the 400
"Missing credentials" error whose detail enumerates the missing platform
ids; in both cases the preflight errors out, so nothing is relayed
upstream. -/
theorem postsPreflight_spec :
    ∀ (secrets : StoredSecrets) (sel : Option TargetSelection),
      ((resolveTargetsFromSelection secrets sel).selectedCount = 0 →
        postsPreflightJson secrets sel
            = Except.error (problem 400 "No targets selected" "Select at least one platform target before publishing.")
          ∧ postsPreflightMultipart secrets sel
            = Except.error (problem 400 "No targets selected" "Select at least one platform target before publishing."))
      ∧ (1 ≤ (resolveTargetsFromSelection secrets sel).selectedCount →
          (resolveTargetsFromSelection secrets sel).missing ≠ [] →
          postsPreflightJson secrets sel
              = Except.error (problem 400 "Missing credentials"
                  ("Credentials missing for: " ++ String.intercalate ", " (resolveTargetsFromSelection secrets sel).missing))
            ∧ postsPreflightMultipart secrets sel
              = Except.error (problem 400 "Missing credentials"
                  ("Credentials missing for: " ++ String.intercalate ", " (resolveTargetsFromSelection secrets sel).missing))) := by
  intro secrets sel
  constructor
  · intro h0
    constructor <;> simp [postsPreflightJson, postsPreflightMultipart, h0]
  · intro h1 hm
    have h0 : ¬(resolveTargetsFromSelection secrets sel).selectedCount = 0 := by omega
    have hlen : 0 < (resolveTargetsFromSelection secrets sel).missing.length :=
      List.length_pos.mpr hm
    constructor <;> simp [postsPreflightJson, postsPreflightMultipart, h0, hlen]

/-! ## Claim C10 -/

/-- Claim C10: whenever `POST /api/settings/secrets` replies with an error
(the partial Bluesky or Mastodon tuple 400s are the only error replies),
the handler performs no keychain write at all, leaving the stored secrets —
including any other valid fields carried in the same rejected body —
entirely unchanged. -/
theorem postSecretsHandler_atomic :
    ∀ (normalizeUrl : String → Option String) (current : StoredSecrets) (body : SecretsBody),
      (∃ p, (postSecretsHandler normalizeUrl current body).reply = Except.error p) →
      (postSecretsHandler normalizeUrl current body).writes = []
        ∧ finalSecrets current (postSecretsHandler normalizeUrl current body) = current := by
  intro normalizeUrl current body h
  obtain ⟨p, hp⟩ := h
  unfold postSecretsHandler at hp ⊢
  cases hB : applyBluesky normalizeUrl body (applyXAuthToken body (applyGatewayApiKey body current)) with
  | error q => simp [hB, finalSecrets]
  | ok next₁ =>
    simp only [hB] at hp ⊢
    cases hM : applyMastodon normalizeUrl body next₁ with
    | error q => simp [hM, finalSecrets]
    | ok next₂ => simp [hM] at hp

/-- Witness for C10: a body carrying a valid gateway API key together with
a partial Bluesky tuple is rejected and writes nothing. -/
theorem postSecretsHandler_atomic_witness :
    (postSecretsHandler (fun _ => none) {} { gatewayApiKey := some (JVal.str "key-1"), blueskyIdentifier := some (JVal.str "alice.bsky.social") }).writes = []
      ∧ finalSecrets {} (postSecretsHandler (fun _ => none) {} { gatewayApiKey := some (JVal.str "key-1"), blueskyIdentifier := some (JVal.str "alice.bsky.social") }) = {} :=
  postSecretsHandler_atomic (fun _ => none) {}
    { gatewayApiKey := some (JVal.str "key-1"), blueskyIdentifier := some (JVal.str "alice.bsky.social") }
    ⟨problem 400 "Bluesky credentials incomplete" "Set identifier, PDS URL, and app password together, or clear all three.", by decide⟩

/-! ## Claim C7 -/

/-- Claim C7: `POST /api/settings/secrets` rejects with the 400
"Bluesky credentials incomplete" problem any request that sets the Bluesky
tuple partially (here: only `blueskyIdentifier`), writing nothing; a
request setting identifier, PDS URL and app password together succeeds and
reports `configured.bluesky = true`; and an all-empty Bluesky tuple clears
the stored tuple rather than erroring. -/
theorem secrets_bluesky_tuple_spec :
    ∀ (normalizeUrl : String → Option String) (current : StoredSecrets) (idv pdv pwv : String),
      (jsTruthy (trimToUndefined (JVal.str idv)) = true →
        postSecretsHandler normalizeUrl current { blueskyIdentifier := some (JVal.str idv) }
          = { writes := []
              reply := Except.error (problem 400 "Bluesky credentials incomplete"
                "Set identifier, PDS URL, and app password together, or clear all three.") })
      ∧ (∀ u : String,
          jsTruthy (trimToUndefined (JVal.str idv)) = true →
          jsTruthy (trimToUndefined (JVal.str pwv)) = true →
          (trimToUndefined (JVal.str pdv)).bind normalizeUrl = some u →
          u.isEmpty = false →
          Except.map (fun r => r.configured.bluesky)
              (postSecretsHandler normalizeUrl current
                { blueskyIdentifier := some (JVal.str idv)
                  blueskyPdsUrl := some (JVal.str pdv)
                  blueskyAppPassword := some (JVal.str pwv) }).reply
            = Except.ok true)
      ∧ postSecretsHandler normalizeUrl current
            { blueskyIdentifier := some (JVal.str "")
              blueskyPdsUrl := some (JVal.str "")
              blueskyAppPassword := some (JVal.str "") }
          = { writes := [{ current with blueskyIdentifier := none, blueskyPdsUrl := none, blueskyAppPassword := none }]
              reply := Except.ok
                { configured := summarizeSecrets { current with blueskyIdentifier := none, blueskyPdsUrl := none, blueskyAppPassword := none }
                  profile := profileOf { current with blueskyIdentifier := none, blueskyPdsUrl := none, blueskyAppPassword := none } } } := by
  intro normalizeUrl current idv pdv pwv
  refine ⟨?_, ?_, ?_⟩
  · intro h1
    cases hid : trimToUndefined (JVal.str idv) with
    | none => rw [hid] at h1; simp [jsTruthy] at h1
    | some tid =>
      rw [hid] at h1
      simp [jsTruthy] at h1
      simp [postSecretsHandler, applyGatewayApiKey, applyXAuthToken, applyBluesky,
        trimToUndefined_nullish, hid, h1, jsTruthy]
  · intro u h1 h2 h3 h4
    cases hid : trimToUndefined (JVal.str idv) with
    | none => rw [hid] at h1; simp [jsTruthy] at h1
    | some tid =>
      cases hpw : trimToUndefined (JVal.str pwv) with
      | none => rw [hpw] at h2; simp [jsTruthy] at h2
      | some tpw =>
        rw [hid] at h1
        rw [hpw] at h2
        simp [jsTruthy] at h1 h2
        simp [postSecretsHandler, applyGatewayApiKey, applyXAuthToken, applyBluesky, applyMastodon,
          trimToUndefined_nullish, hid, hpw, h1, h2, h3, h4, jsTruthy, summarizeSecrets, Except.map]
  · rfl

/-! ## Claim C9 -/

theorem shapeEq_responses {s₁ s₂ : StoredSecrets} (h : secretShapeEq s₁ s₂) :
    summarizeSecrets s₁ = summarizeSecrets s₂ ∧ profileOf s₁ = profileOf s₂ := by
  obtain ⟨h₁, h₂, h₃, h₄, h₅, h₆, h₇, h₈⟩ := h
  constructor <;> simp [summarizeSecrets, profileOf, h₁, h₂, h₃, h₄, h₅, h₆, h₇, h₈]

theorem shapeEq_applyGatewayApiKey (body : SecretsBody) {s₁ s₂ : StoredSecrets} (h : secretShapeEq s₁ s₂) :
    secretShapeEq (applyGatewayApiKey body s₁) (applyGatewayApiKey body s₂) := by
  obtain ⟨h₁, h₂, h₃, h₄, h₅, h₆, h₇, h₈⟩ := h
  cases hgb : body.gatewayApiKey with
  | none =>
    simp only [applyGatewayApiKey, hgb]
    exact ⟨h₁, h₂, h₃, h₄, h₅, h₆, h₇, h₈⟩
  | some v =>
    cases htv : trimToUndefined v <;>
      simp only [applyGatewayApiKey, hgb, htv] <;>
      exact ⟨rfl, h₂, h₃, h₄, h₅, h₆, h₇, h₈⟩

theorem shapeEq_applyXAuthToken (body : SecretsBody) {s₁ s₂ : StoredSecrets} (h : secretShapeEq s₁ s₂) :
    secretShapeEq (applyXAuthToken body s₁) (applyXAuthToken body s₂) := by
  obtain ⟨h₁, h₂, h₃, h₄, h₅, h₆, h₇, h₈⟩ := h
  cases hxb : body.xAuthToken with
  | none =>
    simp only [applyXAuthToken, hxb]
    exact ⟨h₁, h₂, h₃, h₄, h₅, h₆, h₇, h₈⟩
  | some v =>
    cases htv : trimToUndefined v <;>
      simp only [applyXAuthToken, hxb, htv] <;>
      exact ⟨h₁, rfl, h₃, h₄, h₅, h₆, h₇, h₈⟩

theorem shapeEq_applyBluesky (n : String → Option String) (body : SecretsBody) {s₁ s₂ : StoredSecrets} (h : secretShapeEq s₁ s₂) :
    (∃ p, applyBluesky n body s₁ = Except.error p ∧ applyBluesky n body s₂ = Except.error p)
      ∨ (∃ u₁ u₂, applyBluesky n body s₁ = Except.ok u₁ ∧ applyBluesky n body s₂ = Except.ok u₂ ∧ secretShapeEq u₁ u₂) := by
  obtain ⟨h₁, h₂, h₃, h₄, h₅, h₆, h₇, h₈⟩ := h
  unfold applyBluesky
  cases htouch : body.blueskyIdentifier.isSome || body.blueskyPdsUrl.isSome || body.blueskyAppPassword.isSome with
  | false =>
    right
    exact ⟨s₁, s₂, by simp [htouch], by simp [htouch], h₁, h₂, h₃, h₄, h₅, h₆, h₇, h₈⟩
  | true =>
    cases hc1 : !jsTruthy (trimToUndefined (body.blueskyIdentifier.getD JVal.nullish))
        && !jsTruthy ((trimToUndefined (body.blueskyPdsUrl.getD JVal.nullish)).bind n)
        && !jsTruthy (trimToUndefined (body.blueskyAppPassword.getD JVal.nullish)) with
    | true =>
      right
      exact ⟨{ s₁ with blueskyIdentifier := none, blueskyPdsUrl := none, blueskyAppPassword := none },
        { s₂ with blueskyIdentifier := none, blueskyPdsUrl := none, blueskyAppPassword := none },
        by simp [htouch, hc1], by simp [htouch, hc1], h₁, h₂, rfl, h₄, rfl, rfl, h₇, h₈⟩
    | false =>
      cases hc2 : jsTruthy (trimToUndefined (body.blueskyIdentifier.getD JVal.nullish))
          && jsTruthy ((trimToUndefined (body.blueskyPdsUrl.getD JVal.nullish)).bind n)
          && jsTruthy (trimToUndefined (body.blueskyAppPassword.getD JVal.nullish)) with
      | true =>
        right
        exact ⟨{ s₁ with
                   blueskyIdentifier := trimToUndefined (body.blueskyIdentifier.getD JVal.nullish)
                   blueskyPdsUrl := (trimToUndefined (body.blueskyPdsUrl.getD JVal.nullish)).bind n
                   blueskyAppPassword := trimToUndefined (body.blueskyAppPassword.getD JVal.nullish) },
          { s₂ with
              blueskyIdentifier := trimToUndefined (body.blueskyIdentifier.getD JVal.nullish)
              blueskyPdsUrl := (trimToUndefined (body.blueskyPdsUrl.getD JVal.nullish)).bind n
              blueskyAppPassword := trimToUndefined (body.blueskyAppPassword.getD JVal.nullish) },
          by simp [htouch, hc1, hc2], by simp [htouch, hc1, hc2], h₁, h₂, rfl, h₄, rfl, rfl, h₇, h₈⟩
      | false =>
        left
        exact ⟨problem 400 "Bluesky credentials incomplete" "Set identifier, PDS URL, and app password together, or clear all three.",
          by simp [htouch, hc1, hc2], by simp [htouch, hc1, hc2]⟩

theorem shapeEq_applyMastodon (n : String → Option String) (body : SecretsBody) {s₁ s₂ : StoredSecrets} (h : secretShapeEq s₁ s₂) :
    (∃ p, applyMastodon n body s₁ = Except.error p ∧ applyMastodon n body s₂ = Except.error p)
      ∨ (∃ u₁ u₂, applyMastodon n body s₁ = Except.ok u₁ ∧ applyMastodon n body s₂ = Except.ok u₂ ∧ secretShapeEq u₁ u₂) := by
  obtain ⟨h₁, h₂, h₃, h₄, h₅, h₆, h₇, h₈⟩ := h
  unfold applyMastodon
  cases htouch : body.mastodonInstanceUrl.isSome || body.mastodonAccessToken.isSome || body.mastodonVisibility.isSome with
  | false =>
    right
    exact ⟨s₁, s₂, by simp [htouch], by simp [htouch], h₁, h₂, h₃, h₄, h₅, h₆, h₇, h₈⟩
  | true =>
    cases hc1 : !jsTruthy ((trimToUndefined (body.mastodonInstanceUrl.getD JVal.nullish)).bind n)
        && !jsTruthy (trimToUndefined (body.mastodonAccessToken.getD JVal.nullish)) with
    | true =>
      right
      exact ⟨{ s₁ with mastodonInstanceUrl := none, mastodonAccessToken := none, mastodonVisibility := none },
        { s₂ with mastodonInstanceUrl := none, mastodonAccessToken := none, mastodonVisibility := none },
        by simp [htouch, hc1], by simp [htouch, hc1], h₁, h₂, h₃, rfl, h₅, h₆, rfl, rfl⟩
    | false =>
      cases hc2 : jsTruthy ((trimToUndefined (body.mastodonInstanceUrl.getD JVal.nullish)).bind n)
          && jsTruthy (trimToUndefined (body.mastodonAccessToken.getD JVal.nullish)) with
      | true =>
        right
        exact ⟨{ s₁ with
                   mastodonInstanceUrl := (trimToUndefined (body.mastodonInstanceUrl.getD JVal.nullish)).bind n
                   mastodonAccessToken := trimToUndefined (body.mastodonAccessToken.getD JVal.nullish)
                   mastodonVisibility := some ((trimToUndefined (body.mastodonVisibility.getD JVal.nullish)).getD "public") },
          { s₂ with
              mastodonInstanceUrl := (trimToUndefined (body.mastodonInstanceUrl.getD JVal.nullish)).bind n
              mastodonAccessToken := trimToUndefined (body.mastodonAccessToken.getD JVal.nullish)
              mastodonVisibility := some ((trimToUndefined (body.mastodonVisibility.getD JVal.nullish)).getD "public") },
          by simp [htouch, hc1, hc2], by simp [htouch, hc1, hc2], h₁, h₂, h₃, rfl, h₅, h₆, rfl, rfl⟩
      | false =>
        left
        exact ⟨problem 400 "Mastodon credentials incomplete" "Set instance URL and access token together, or clear both fields.",
          by simp [htouch, hc1, hc2], by simp [htouch, hc1, hc2]⟩

/-- Claim C9: neither `GET /api/settings` nor `POST /api/settings/secrets`
reveals raw secret values: over any two stored-secrets states whose four raw
secret values differ arbitrarily (with the same truthiness) and whose four
non-secret profile fields agree, both endpoints produce identical responses
— presence is reported only through the `configured` booleans and `profile`
carries only the non-secret fields. -/
theorem settings_no_raw_secrets :
    ∀ (gatewayBaseUrl : String) (normalizeUrl : String → Option String) (body : SecretsBody) (s₁ s₂ : StoredSecrets),
      secretShapeEq s₁ s₂ →
      settingsGetResponse gatewayBaseUrl s₁ = settingsGetResponse gatewayBaseUrl s₂
        ∧ (postSecretsHandler normalizeUrl s₁ body).reply = (postSecretsHandler normalizeUrl s₂ body).reply := by
  intro gatewayBaseUrl normalizeUrl body s₁ s₂ h
  have hresp := shapeEq_responses h
  refine ⟨by simp [settingsGetResponse, hresp.1, hresp.2], ?_⟩
  have hkey := shapeEq_applyXAuthToken body (shapeEq_applyGatewayApiKey body h)
  unfold postSecretsHandler
  rcases shapeEq_applyBluesky normalizeUrl body hkey with ⟨p, hp₁, hp₂⟩ | ⟨u₁, u₂, hu₁, hu₂, hu⟩
  · simp only [hp₁, hp₂]
  · simp only [hu₁, hu₂]
    rcases shapeEq_applyMastodon normalizeUrl body hu with ⟨p, hp₁, hp₂⟩ | ⟨v₁, v₂, hv₁, hv₂, hv⟩
    · simp only [hp₁, hp₂]
    · have hfinal := shapeEq_responses hv
      simp only [hv₁, hv₂, hfinal.1, hfinal.2]

/-- Witness for C9: two stores that differ in every raw secret value (API
key, X token, Bluesky app password, Mastodon access token) produce the same
settings responses. -/
theorem settings_no_raw_secrets_witness :
    settingsGetResponse "http://127.0.0.1:38081"
        { gatewayApiKey := some "secret-a", xAuthToken := some "token-a",
          blueskyIdentifier := some "alice.bsky.social", blueskyPdsUrl := some "https://bsky.social",
          blueskyAppPassword := some "pw-a", mastodonInstanceUrl := some "https://mastodon.example",
          mastodonAccessToken := some "acc-a", mastodonVisibility := some "public" }
      = settingsGetResponse "http://127.0.0.1:38081"
        { gatewayApiKey := some "secret-b", xAuthToken := some "token-b",
          blueskyIdentifier := some "alice.bsky.social", blueskyPdsUrl := some "https://bsky.social",
          blueskyAppPassword := some "pw-b", mastodonInstanceUrl := some "https://mastodon.example",
          mastodonAccessToken := some "acc-b", mastodonVisibility := some "public" }
      ∧ (postSecretsHandler (fun _ => none)
            { gatewayApiKey := some "secret-a", xAuthToken := some "token-a",
              blueskyIdentifier := some "alice.bsky.social", blueskyPdsUrl := some "https://bsky.social",
              blueskyAppPassword := some "pw-a", mastodonInstanceUrl := some "https://mastodon.example",
              mastodonAccessToken := some "acc-a", mastodonVisibility := some "public" } {}).reply
        = (postSecretsHandler (fun _ => none)
            { gatewayApiKey := some "secret-b", xAuthToken := some "token-b",
              blueskyIdentifier := some "alice.bsky.social", blueskyPdsUrl := some "https://bsky.social",
              blueskyAppPassword := some "pw-b", mastodonInstanceUrl := some "https://mastodon.example",
              mastodonAccessToken := some "acc-b", mastodonVisibility := some "public" } {}).reply :=
  settings_no_raw_secrets "http://127.0.0.1:38081" (fun _ => none) {}
    { gatewayApiKey := some "secret-a", xAuthToken := some "token-a",
      blueskyIdentifier := some "alice.bsky.social", blueskyPdsUrl := some "https://bsky.social",
      blueskyAppPassword := some "pw-a", mastodonInstanceUrl := some "https://mastodon.example",
      mastodonAccessToken := some "acc-a", mastodonVisibility := some "public" }
    { gatewayApiKey := some "secret-b", xAuthToken := some "token-b",
      blueskyIdentifier := some "alice.bsky.social", blueskyPdsUrl := some "https://bsky.social",
      blueskyAppPassword := some "pw-b", mastodonInstanceUrl := some "https://mastodon.example",
      mastodonAccessToken := some "acc-b", mastodonVisibility := some "public" }
    ⟨by decide, by decide, by decide, by decide, rfl, rfl, rfl, rfl⟩

/-! ## Claim C8 -/

/-- Claim C8: `relayUpstream` always forwards the upstream's original
status code; when the content type is neither `application/json` nor
`problem+json` (for example a plain-text 502) it sends the body text
unchanged, and for JSON/problem+json content types it sends the parsed
body (parse-then-send) under the same original status. -/
theorem relayUpstream_spec :
    ∀ {J : Type} (parse : String → Option J) (u : UpstreamResponse),
      (relayUpstream parse u).status = u.status
        ∧ (relayTreatsAsJson u.contentType = false →
            (relayUpstream parse u).body = RelayBody.rawText u.bodyText)
        ∧ (relayTreatsAsJson u.contentType = true →
            (relayUpstream parse u).body
              = match parse u.bodyText with
                | some j => RelayBody.parsedJson j
                | none => RelayBody.rawText u.bodyText)
        ∧ relayUpstream parse { contentType := some "text/plain; charset=utf-8", status := 502, bodyText := "Bad Gateway" }
          = { contentTypeHeader := some "text/plain; charset=utf-8", status := 502, body := RelayBody.rawText "Bad Gateway" } := by
  intro J parse u
  have hplain : relayTreatsAsJson (some "text/plain; charset=utf-8") = false := by decide
  refine ⟨rfl, fun h => ?_, fun h => ?_, ?_⟩
  · simp [relayUpstream, h]
  · simp [relayUpstream, h]
  · simp [relayUpstream, hplain]
    decide

/-! ## Claim C6 -/

/-- Counterexample to claim C6: a client payload carrying both a non-empty
`text` string and a non-empty `thread` array yields a gateway payload with
BOTH fields set, and the empty client payload yields one with NEITHER set,
so "exactly one of text or thread, never both and never neither" fails. -/
theorem buildGatewayPayload_exactlyOne_cex :
    (buildGatewayPayload { text := JVal.str "hi", thread := JThread.arr [JVal.str "first"] } {}).text = some "hi"
      ∧ (buildGatewayPayload { text := JVal.str "hi", thread := JThread.arr [JVal.str "first"] } {}).thread = some [{ text := "first" }]
      ∧ ¬(((buildGatewayPayload { text := JVal.str "hi", thread := JThread.arr [JVal.str "first"] } {}).text.isSome = true
            ∧ (buildGatewayPayload { text := JVal.str "hi", thread := JThread.arr [JVal.str "first"] } {}).thread = none)
          ∨ ((buildGatewayPayload { text := JVal.str "hi", thread := JThread.arr [JVal.str "first"] } {}).text = none
            ∧ (buildGatewayPayload { text := JVal.str "hi", thread := JThread.arr [JVal.str "first"] } {}).thread.isSome = true))
      ∧ (buildGatewayPayload {} {}).text = none
      ∧ (buildGatewayPayload {} {}).thread = none := by
  decide

/-- Claim C6 as amended: `buildGatewayPayload` sets `text` exactly when the
client payload's `text` is a non-empty string, and sets `thread` exactly
when the client `thread` is a non-empty array (sanitized: non-array input
discarded, each element coerced to `{text: string}`); a payload supplying
both non-empty fields gets both, one supplying neither gets neither, so
exactly-one holds only for payloads that supply exactly one of the two. -/
theorem buildGatewayPayload_text_thread_spec :
    ∀ (clientPayload : ClientPayload) (targets : GatewayTargets),
      ((buildGatewayPayload clientPayload targets).text.isSome
          ↔ ∃ s, clientPayload.text = JVal.str s ∧ 0 < s.length)
        ∧ ((buildGatewayPayload clientPayload targets).thread.isSome
          ↔ ∃ segs, clientPayload.thread = JThread.arr segs ∧ segs ≠ [])
        ∧ (buildGatewayPayload clientPayload targets).thread = sanitizeThread clientPayload.thread
        ∧ sanitizeThread JThread.notArray = none
        ∧ (∀ segs : List JVal, segs ≠ [] →
            sanitizeThread (JThread.arr segs) = some (segs.map (fun seg => { text := segText seg }))) := by
  intro clientPayload targets
  refine ⟨?_, ?_, rfl, rfl, ?_⟩
  · cases htext : clientPayload.text with
    | str s =>
      by_cases hlen : 0 < s.length
      · simp [buildGatewayPayload, htext, hlen]
      · simp [buildGatewayPayload, htext, hlen]
    | nullish => simp [buildGatewayPayload, htext]
    | other a => simp [buildGatewayPayload, htext]
  · cases hthread : clientPayload.thread with
    | notArray => simp [buildGatewayPayload, sanitizeThread, hthread]
    | arr segs =>
      cases segs with
      | nil => simp [buildGatewayPayload, sanitizeThread, hthread]
      | cons a as => simp [buildGatewayPayload, sanitizeThread, hthread]
  · intro segs hsegs
    cases segs with
    | nil => exact absurd rfl hsegs
    | cons a as => simp [sanitizeThread]

/-! ## Validation-engine helper lemmas -/

theorem mem_ite_singleton {c : Bool} {a b : String} :
    (b ∈ if c then [a] else ([] : List String)) ↔ (c = true ∧ b = a) := by
  cases c <;> simp

theorem ite_singleton_eq_nil {c : Bool} {a : String} :
    ((if c then [a] else ([] : List String)) = []) ↔ c = false := by
  cases c <;> simp

theorem mem_ite_singleton_prop {P : Prop} [Decidable P] {a b : String} :
    (b ∈ if P then [a] else ([] : List String)) ↔ (P ∧ b = a) := by
  by_cases h : P <;> simp [h]

theorem ite_singleton_eq_nil_prop {P : Prop} [Decidable P] {a : String} :
    ((if P then [a] else ([] : List String)) = []) ↔ ¬P := by
  by_cases h : P <;> simp [h]

theorem count_ite_singleton (c : Bool) (a b : String) :
    ((if c then [a] else ([] : List String)).count b) = if c = true ∧ a = b then 1 else 0 := by
  cases c <;> by_cases hab : a = b <;> simp [hab, List.count_singleton, List.count_cons]

theorem ne_of_paren {s t : String} (hs : '(' ∈ s.data) (ht : '(' ∉ t.data) : s ≠ t :=
  fun h => ht (h ▸ hs)

theorem paren_mem_xLimitMsg (a : String) (b c : Nat) : '(' ∈ (xLimitMsg a b c).data := by
  unfold xLimitMsg
  simp [String.data_append]

theorem paren_mem_blueskyLimitMsg (a : String) (b c : Nat) : '(' ∈ (blueskyLimitMsg a b c).data := by
  unfold blueskyLimitMsg
  simp [String.data_append]

theorem paren_mem_mastodonLimitMsg (a : String) (b c : Nat) : '(' ∈ (mastodonLimitMsg a b c).data := by
  unfold mastodonLimitMsg
  simp [String.data_append]

theorem mem_charLimitErrorsFor_paren {selected : TargetSelection} {xL bL : Nat} {mL : Option Nat} {label : String} {len : Nat} {msg : String}
    (h : msg ∈ charLimitErrorsFor selected xL bL mL label len) : '(' ∈ msg.data := by
  unfold charLimitErrorsFor at h
  rcases List.mem_append.mp h with h' | h'
  · rcases List.mem_append.mp h' with h'' | h''
    · rcases mem_ite_singleton.mp h'' with ⟨_, rfl⟩
      exact paren_mem_xLimitMsg label len xL
    · rcases mem_ite_singleton.mp h'' with ⟨_, rfl⟩
      exact paren_mem_blueskyLimitMsg label len bL
  · unfold mastodonCharErrors at h'
    cases hm : mL with
    | none => rw [hm] at h'; cases h'
    | some m =>
      rw [hm] at h'
      rcases mem_ite_singleton.mp h' with ⟨_, rfl⟩
      exact paren_mem_mastodonLimitMsg label len m

theorem mem_charLimitErrors_paren {limits : Option LimitsResponse} {selected : TargetSelection} {mode : Mode} {trimmedSegments : List String} {msg : String}
    (h : msg ∈ charLimitErrors limits selected mode trimmedSegments) : '(' ∈ msg.data := by
  unfold charLimitErrors at h
  rcases List.mem_flatMap.mp h with ⟨p, _, hmem⟩
  exact mem_charLimitErrorsFor_paren hmem

theorem charLimitErrors_not_mem_static {limits : Option LimitsResponse} {selected : TargetSelection} {mode : Mode} {trimmedSegments : List String} {msg : String}
    (hmsg : '(' ∉ msg.data) : msg ∉ charLimitErrors limits selected mode trimmedSegments :=
  fun h => hmsg (mem_charLimitErrors_paren h)

theorem blueskyMediaErrors_nil (selected : TargetSelection) : blueskyMediaErrors selected [] = [] := by
  unfold blueskyMediaErrors groupKeys
  cases selected.bluesky <;> simp

theorem mastodonMediaErrors_nil (limits : Option LimitsResponse) (selected : TargetSelection) :
    mastodonMediaErrors limits selected [] = [] := by
  unfold mastodonMediaErrors
  cases hm : (limits.bind (fun l => l.mastodon)).map (fun m => m.maxMediaAttachments) with
  | none => simp only [hm]
  | some maxAttach =>
    simp only [hm]
    cases selected.mastodon && !(maxAttach == 0) <;> simp [groupKeys]

theorem charLimitErrors_unselected :
    (∀ (limits : Option LimitsResponse) (mode : Mode) (trimmedSegments : List String),
      charLimitErrors limits { x := false, bluesky := false, mastodon := false } mode trimmedSegments = [])
    ∧ (∀ (xM bM : Nat) (mode : Mode) (trimmedSegments : List String),
        charLimitErrors (some { x := { maxCharacters := xM }, bluesky := { maxCharacters := bM }, mastodon := none })
          { x := false, bluesky := false, mastodon := true } mode trimmedSegments = []) := by
  constructor
  · intro limits mode trimmedSegments
    unfold charLimitErrors
    rw [List.flatMap_eq_nil_iff]
    intro p _
    unfold charLimitErrorsFor mastodonCharErrors
    cases hm : (limits.bind (fun l => l.mastodon)).map (fun m => m.maxCharacters) with
    | none => simp
    | some m => simp
  · intro xM bM mode trimmedSegments
    unfold charLimitErrors
    rw [List.flatMap_eq_nil_iff]
    intro p _
    unfold charLimitErrorsFor mastodonCharErrors
    simp

/-! ## Claim C5 -/

set_option maxRecDepth 40000 in
/-- Claim C5: character counting is by Unicode code point — 280 four-byte
emoji count as exactly 280 (1120 UTF-8 bytes, 560 UTF-16 units), produce no
violation at the default X limit of 280, and 281 produce exactly the one
X-limit violation; limits are checked only against selected targets, and
Mastodon only when its live limit was fetched. -/
theorem validate_codepoint_limits_spec :
    countCharacters (String.mk (List.replicate 280 (Char.ofNat 128512))) = 280
      ∧ (String.mk (List.replicate 280 (Char.ofNat 128512))).utf8ByteSize = 1120
      ∧ utf16Length (String.mk (List.replicate 280 (Char.ofNat 128512))) = 560
      ∧ getValidationErrors (fun _ => true) none (emojiDraft 280) false = []
      ∧ getValidationErrors (fun _ => true) none (emojiDraft 281) false = [xLimitMsg "Post" 281 280]
      ∧ (∀ (limits : Option LimitsResponse) (mode : Mode) (trimmedSegments : List String),
          charLimitErrors limits { x := false, bluesky := false, mastodon := false } mode trimmedSegments = [])
      ∧ (∀ (xM bM : Nat) (mode : Mode) (trimmedSegments : List String),
          charLimitErrors (some { x := { maxCharacters := xM }, bluesky := { maxCharacters := bM }, mastodon := none })
            { x := false, bluesky := false, mastodon := true } mode trimmedSegments = []) := by
  refine ⟨by decide, by decide, by decide, by decide, by decide,
    charLimitErrors_unselected.1, charLimitErrors_unselected.2⟩

/-! ## Claim C3 -/

/-- Counterexample to claim C3: in thread mode with segments
`["", "", "hi"]` there are two individually empty segments, but validate
emits the per-segment emptiness violation ONCE (the whole output is the
single message "Each thread segment should contain text."), not once per
empty segment as the claim states. -/
theorem validate_thread_text_cex :
    getValidationErrors (fun _ => true) none
        { mode := Mode.thread, text := "", thread := ["", "", "hi"], scheduleAt := "",
          selectedTargets := { x := true, bluesky := false, mastodon := false }, media := [] } false
        = [threadSegMsg]
      ∧ ((["", "", "hi"].map jsTrim).countP (fun v => v.isEmpty)) = 2
      ∧ ¬((getValidationErrors (fun _ => true) none
            { mode := Mode.thread, text := "", thread := ["", "", "hi"], scheduleAt := "",
              selectedTargets := { x := true, bluesky := false, mastodon := false }, media := [] } false).count threadSegMsg
          = (["", "", "hi"].map jsTrim).countP (fun v => v.isEmpty)) := by
  decide

theorem paren_mem_mastodonMediaMsg (k total limit : Nat) : '(' ∈ (mastodonMediaMsg k total limit).data := by
  unfold mastodonMediaMsg
  simp [String.data_append]

theorem b_mem_blueskyVideoMsg (k : Nat) : 'B' ∈ (blueskyVideoMsg k).data := by
  unfold blueskyVideoMsg
  simp [String.data_append]

theorem b_mem_blueskyMixMsg (k : Nat) : 'B' ∈ (blueskyMixMsg k).data := by
  unfold blueskyMixMsg
  simp [String.data_append]

theorem b_mem_blueskyImagesMsg (k : Nat) : 'B' ∈ (blueskyImagesMsg k).data := by
  unfold blueskyImagesMsg
  simp [String.data_append]

theorem mem_blueskyGroupViolations_B {k : Nat} {entries : List DraftMediaEntry} {msg : String}
    (h : msg ∈ blueskyGroupViolations k entries) : 'B' ∈ msg.data := by
  unfold blueskyGroupViolations at h
  rcases List.mem_append.mp h with h' | h'
  · rcases List.mem_append.mp h' with h'' | h''
    · rcases mem_ite_singleton.mp h'' with ⟨_, rfl⟩
      exact b_mem_blueskyVideoMsg k
    · rcases mem_ite_singleton.mp h'' with ⟨_, rfl⟩
      exact b_mem_blueskyMixMsg k
  · rcases mem_ite_singleton.mp h' with ⟨_, rfl⟩
    exact b_mem_blueskyImagesMsg k

theorem mem_blueskyMediaErrors_B {selected : TargetSelection} {media : List DraftMediaEntry} {msg : String}
    (h : msg ∈ blueskyMediaErrors selected media) : 'B' ∈ msg.data := by
  unfold blueskyMediaErrors at h
  split at h
  · rcases List.mem_flatMap.mp h with ⟨k, _, hmem⟩
    exact mem_blueskyGroupViolations_B hmem
  · cases h

theorem mem_mastodonMediaErrors_paren {limits : Option LimitsResponse} {selected : TargetSelection} {media : List DraftMediaEntry} {msg : String}
    (h : msg ∈ mastodonMediaErrors limits selected media) : '(' ∈ msg.data := by
  unfold mastodonMediaErrors at h
  cases hm : (limits.bind (fun l => l.mastodon)).map (fun m => m.maxMediaAttachments) with
  | none => simp only [hm] at h; cases h
  | some maxAttach =>
    simp only [hm] at h
    split at h
    · rcases List.mem_flatMap.mp h with ⟨k, _, hmem⟩
      rcases mem_ite_singleton.mp hmem with ⟨_, rfl⟩
      exact paren_mem_mastodonMediaMsg k (groupOf media k).length maxAttach
    · cases h

theorem mem_scheduleErrors_shape {dateParses : String → Bool} {wantsSchedule : Bool} {scheduleAt msg : String}
    (h : msg ∈ scheduleErrors dateParses wantsSchedule scheduleAt) :
    msg = scheduleMissingMsg ∨ msg = scheduleInvalidMsg := by
  unfold scheduleErrors at h
  split at h
  · split at h
    · exact Or.inl (List.mem_singleton.mp h)
    · split at h
      · exact Or.inr (List.mem_singleton.mp h)
      · cases h
  · cases h

/-- Claim C3 as amended: for every thread-mode draft (any attached media,
any limits, whether or not scheduling is requested), validate flags the
missing-text violation exactly when every segment trims to empty, and
emits the thread-segment violation exactly once whenever at least one
segment trims to empty (including when all do) — a single violation in
total, not one per empty segment. -/
theorem validate_thread_text_spec :
    ∀ (dateParses : String → Bool) (limits : Option LimitsResponse) (st : ValidationInput) (wantsSchedule : Bool),
      st.mode = Mode.thread →
      ((missingTextMsg ∈ getValidationErrors dateParses limits st wantsSchedule)
          ↔ (st.thread.map jsTrim).all (fun v => v.isEmpty) = true)
        ∧ (getValidationErrors dateParses limits st wantsSchedule).count threadSegMsg
          = (if (st.thread.map jsTrim).any (fun v => v.isEmpty) then 1 else 0) := by
  intro dateParses limits st wantsSchedule hmode
  unfold getValidationErrors
  rw [hmode]
  constructor
  · simp only [List.mem_append]
    constructor
    · rintro ((((((h | h) | h) | h) | h) | h) | h)
      · unfold selectTargetErrors at h
        split at h
        · cases h
        · exact absurd (List.mem_singleton.mp h) (by decide)
      · unfold missingTextErrors at h
        split at h
        · assumption
        · cases h
      · unfold threadEmptyErrors at h
        split at h
        · exact absurd (List.mem_singleton.mp h) (by decide)
        · cases h
      · exact absurd (mem_charLimitErrors_paren h) (by decide)
      · exact absurd (mem_blueskyMediaErrors_B h) (by decide)
      · exact absurd (mem_mastodonMediaErrors_paren h) (by decide)
      · rcases mem_scheduleErrors_shape h with h | h <;> exact absurd h (by decide)
    · intro hall
      left; left; left; left; left; right
      unfold missingTextErrors
      simp [hall]
  · simp only [List.count_append]
    have c1 : (selectTargetErrors st.selectedTargets).count threadSegMsg = 0 := by
      rw [List.count_eq_zero]
      unfold selectTargetErrors
      split
      · simp
      · decide
    have c2 : (missingTextErrors (st.thread.map jsTrim)).count threadSegMsg = 0 := by
      rw [List.count_eq_zero]
      unfold missingTextErrors
      split
      · decide
      · simp
    have c4 : (charLimitErrors limits st.selectedTargets Mode.thread (st.thread.map jsTrim)).count threadSegMsg = 0 :=
      List.count_eq_zero.mpr (charLimitErrors_not_mem_static (by decide))
    have c5 : (blueskyMediaErrors st.selectedTargets st.media).count threadSegMsg = 0 :=
      List.count_eq_zero.mpr (fun h => absurd (mem_blueskyMediaErrors_B h) (by decide))
    have c6 : (mastodonMediaErrors limits st.selectedTargets st.media).count threadSegMsg = 0 :=
      List.count_eq_zero.mpr (fun h => absurd (mem_mastodonMediaErrors_paren h) (by decide))
    have c7 : (scheduleErrors dateParses wantsSchedule st.scheduleAt).count threadSegMsg = 0 :=
      List.count_eq_zero.mpr
        (fun h => by rcases mem_scheduleErrors_shape h with h | h <;> exact absurd h (by decide))
    rw [c1, c2, c4, c5, c6, c7]
    unfold threadEmptyErrors
    cases hany : (st.thread.map jsTrim).any (fun v => v.isEmpty) <;> simp [hany]

/-- Witness for the amended C3: a two-segment thread with one empty
segment, an attached image on the empty segment and scheduling requested
still produces the thread-segment violation exactly once and no
missing-text violation. -/
theorem validate_thread_text_witness :
    ((missingTextMsg ∈ getValidationErrors (fun _ => true) none
          { mode := Mode.thread, text := "", thread := ["ok", " "], scheduleAt := "2026-01-01T10:00",
            selectedTargets := { x := true, bluesky := false, mastodon := false },
            media := [{ threadIndex := 1, fileType := "image/png" }] } true)
        ↔ ((["ok", " "].map jsTrim).all (fun v => v.isEmpty)) = true)
      ∧ (getValidationErrors (fun _ => true) none
          { mode := Mode.thread, text := "", thread := ["ok", " "], scheduleAt := "2026-01-01T10:00",
            selectedTargets := { x := true, bluesky := false, mastodon := false },
            media := [{ threadIndex := 1, fileType := "image/png" }] } true).count threadSegMsg
        = (if (["ok", " "].map jsTrim).any (fun v => v.isEmpty) then 1 else 0) :=
  validate_thread_text_spec (fun _ => true) none
    { mode := Mode.thread, text := "", thread := ["ok", " "], scheduleAt := "2026-01-01T10:00",
      selectedTargets := { x := true, bluesky := false, mastodon := false },
      media := [{ threadIndex := 1, fileType := "image/png" }] } true rfl

/-! ## Claim C4 -/

theorem blueskyMsg_pairwise_ne (k : Nat) :
    blueskyVideoMsg k ≠ blueskyMixMsg k
      ∧ blueskyVideoMsg k ≠ blueskyImagesMsg k
      ∧ blueskyMixMsg k ≠ blueskyImagesMsg k := by
  have key : ∀ (s₁ s₂ : String), s₁.data ≠ s₂.data →
      ("Bluesky segment " ++ toString (k + 1)) ++ s₁ ≠ ("Bluesky segment " ++ toString (k + 1)) ++ s₂ := by
    intro s₁ s₂ hne h
    apply hne
    have hd := congrArg String.data h
    simp only [String.data_append] at hd
    exact List.append_cancel_left hd
  exact ⟨key _ _ (by decide), key _ _ (by decide), key _ _ (by decide)⟩

/-- Claim C4: with media grouped by `threadIndex`, one segment group emits
the one-video violation exactly when it holds 2 or more videos, the mix
violation exactly when it holds exactly one video and at least one image,
and the image-count violation exactly when it holds no video and more than
4 images; a group violates nothing else (in particular, exactly 4 images
and no video produce no Bluesky media violation), the grouped Bluesky
check appears verbatim inside `getValidationErrors`, and it is skipped
entirely when Bluesky is not selected. -/
theorem validate_bluesky_media_spec :
    ∀ (media : List DraftMediaEntry) (k : Nat),
      ((blueskyVideoMsg k ∈ blueskyGroupViolations k (groupOf media k))
          ↔ 2 ≤ ((groupOf media k).filter isVideoEntry).length)
        ∧ ((blueskyMixMsg k ∈ blueskyGroupViolations k (groupOf media k))
          ↔ (((groupOf media k).filter isVideoEntry).length = 1
              ∧ 1 ≤ ((groupOf media k).filter isImageEntry).length))
        ∧ ((blueskyImagesMsg k ∈ blueskyGroupViolations k (groupOf media k))
          ↔ (((groupOf media k).filter isVideoEntry).length = 0
              ∧ 4 < ((groupOf media k).filter isImageEntry).length))
        ∧ (blueskyGroupViolations k (groupOf media k) ≠ []
          ↔ (2 ≤ ((groupOf media k).filter isVideoEntry).length
              ∨ (1 ≤ ((groupOf media k).filter isVideoEntry).length
                  ∧ 1 ≤ ((groupOf media k).filter isImageEntry).length)
              ∨ (((groupOf media k).filter isVideoEntry).length = 0
                  ∧ 4 < ((groupOf media k).filter isImageEntry).length)))
        ∧ (∀ (dateParses : String → Bool) (limits : Option LimitsResponse) (st : ValidationInput) (wantsSchedule : Bool),
            List.IsInfix (blueskyMediaErrors st.selectedTargets st.media)
              (getValidationErrors dateParses limits st wantsSchedule))
        ∧ (∀ selected : TargetSelection, selected.bluesky = false → blueskyMediaErrors selected media = []) := by
  intro media k
  obtain ⟨hne1, hne2, hne3⟩ := blueskyMsg_pairwise_ne k
  refine ⟨?_, ?_, ?_, ?_, ?_, ?_⟩
  · unfold blueskyGroupViolations
    simp only [List.mem_append, decide_eq_true_eq, Bool.and_eq_true, beq_iff_eq]
    simp only [mem_ite_singleton_prop]
    simp [hne1, hne2]
    omega
  · unfold blueskyGroupViolations
    simp only [List.mem_append, decide_eq_true_eq, Bool.and_eq_true, beq_iff_eq]
    simp only [mem_ite_singleton_prop]
    simp [Ne.symm hne1, hne3]
    omega
  · unfold blueskyGroupViolations
    simp only [List.mem_append, decide_eq_true_eq, Bool.and_eq_true, beq_iff_eq]
    simp only [mem_ite_singleton_prop]
    simp [Ne.symm hne2, Ne.symm hne3]
  · unfold blueskyGroupViolations
    simp only [ne_eq, List.append_eq_nil, decide_eq_true_eq, Bool.and_eq_true, beq_iff_eq]
    simp only [ite_singleton_eq_nil_prop]
    omega
  · intro dateParses limits st wantsSchedule
    refine ⟨selectTargetErrors st.selectedTargets
        ++ missingTextErrors ((match st.mode with | Mode.single => [st.text] | Mode.thread => st.thread).map jsTrim)
        ++ threadEmptyErrors st.mode ((match st.mode with | Mode.single => [st.text] | Mode.thread => st.thread).map jsTrim)
        ++ charLimitErrors limits st.selectedTargets st.mode ((match st.mode with | Mode.single => [st.text] | Mode.thread => st.thread).map jsTrim),
      mastodonMediaErrors limits st.selectedTargets st.media ++ scheduleErrors dateParses wantsSchedule st.scheduleAt, ?_⟩
    simp [getValidationErrors, List.append_assoc]
  · intro selected h
    unfold blueskyMediaErrors
    simp [h]

end Crosspost
